import Mathlib

/-!
Shallow embedding of the crypto dashboard pipeline (crypto_app.py):
the fetcher, the transformer (process_data), the coin selector mapping,
the presenter metrics, and the time-to-live fetch memo.

Modelling conventions:
- A JSON market payload is a finite dictionary from string keys to arrays
  of (epoch-milliseconds, value) pairs; Python dict truthiness is
  non-emptiness.
- pandas timestamps (datetime64 at nanosecond resolution) are modelled as
  nanoseconds since the epoch, so the unit-ms conversion multiplies by 1e6.
- Python exceptions are modelled with Except or Option: a construction
  that raises is an error value, and the top-level script maps an
  uncaught error to an unhandled-exception outcome distinct from the
  warning and error banners.
- Prices and volumes are modelled as rationals.
-/

namespace CryptoApp

/-- A raw market payload: a JSON object whose fields map names to arrays
of (epoch-millis, number) pairs. The absent payload is modelled by
Option.none at use sites; the empty (falsy) dictionary is the empty list. -/
abbrev Payload := List (String × List (Int × Rat))

/-- Python dictionary lookup, first matching key. -/
def dictFind {α : Type} (d : List (String × α)) (k : String) : Option α :=
  (d.find? (fun e => e.1 == k)).map (fun e => e.2)

/-- Python truthiness of the fetch result: None and the empty dict are
falsy, a non-empty dict is truthy. -/
def truthy : Option Payload → Bool
  | none => false
  | some d => !d.isEmpty

/-- pd.to_datetime(ts, unit=ms): epoch milliseconds to a calendar
timestamp at nanosecond resolution, modelled as nanoseconds since epoch. -/
def toDatetimeNs (ms : Int) : Int := ms * 1000000

/-- One row of the market table: indexed by the converted date, with
price and volume columns. -/
structure Row where
  date : Int
  price : Rat
  volume : Rat
  deriving DecidableEq, Repr

/-- process_data (crypto_app.py lines 42-51). A falsy payload gives an
empty table. Otherwise the DataFrame is built from the prices array
(KeyError when the key is missing), the volume column is assigned from
the total_volumes array (KeyError when missing, ValueError when the
lengths differ), and the date index is the converted timestamp of the
price pair. Raised exceptions are Except.error values. -/
def process_data (raw_data : Option Payload) : Except String (List Row) :=
  match raw_data with
  | none => Except.ok []
  | some d =>
    if d.isEmpty then Except.ok [] else
    match dictFind d "prices" with
    | none => Except.error "KeyError: prices"
    | some prices =>
      match dictFind d "total_volumes" with
      | none => Except.error "KeyError: total_volumes"
      | some vols =>
        if vols.length = prices.length then
          Except.ok ((prices.zip vols).map
            (fun pv => Row.mk (toDatetimeNs pv.1.1) pv.1.2 pv.2.2))
        else
          Except.error "ValueError: Length of values does not match length of index"

/-- Positional indexing from the end, series[-k] in pandas: the element
k places before the end when the series has at least k elements, an
index error (none) otherwise. -/
def getFromEnd (s : List Rat) (k : Nat) : Option Rat :=
  if k ≤ s.length then s[s.length - k]? else none

/-- The metrics snapshot computed by the presenter (lines 93-96). -/
structure Metrics where
  latest_price : Rat
  prev_price : Rat
  price_change : Rat
  price_change_pct : Rat
  deriving DecidableEq, Repr

/-- The presenter metrics: latest price is price[-1], previous price is
price[-2], change is their difference, percentage change is
change / previous * 100. Returns none when an index lookup fails
(the unguarded short-table case). -/
def computeMetrics (df : List Row) : Option Metrics :=
  match getFromEnd (df.map Row.price) 1, getFromEnd (df.map Row.price) 2 with
  | some lp, some pp => some (Metrics.mk lp pp (lp - pp) ((lp - pp) / pp * 100))
  | _, _ => none

/-- The rendered outcome of one top-to-bottom pass: the metrics header
with its chart panels, the could-not-process warning banner, the
fetch-failed error banner, or an unhandled exception surfaced by the
framework. -/
inductive Render where
  | metricsAndCharts (m : Metrics) (charts : Nat)
  | warning (msg : String)
  | errorBanner (msg : String)
  | exception (msg : String)
  deriving DecidableEq, Repr

/-- The main script logic (lines 87-178) applied to a fetch result: a
truthy payload is processed; a non-empty table yields the metrics and
the three charts, an empty table yields the warning banner; a falsy
fetch result yields the error banner. An exception escaping
process_data or the metrics lookups is unhandled. -/
def render (raw_data : Option Payload) : Render :=
  if truthy raw_data then
    match process_data raw_data with
    | Except.error e => Render.exception e
    | Except.ok df =>
      if df.isEmpty then Render.warning "Could not process the fetched data."
      else
        match computeMetrics df with
        | none => Render.exception "IndexError: index out of bounds"
        | some m => Render.metricsAndCharts m 3
  else Render.errorBanner "Failed to fetch data from the API. Please try again later."

/-- Number of chart panels rendered by an outcome. -/
def chartsRendered : Render → Nat
  | Render.metricsAndCharts _ c => c
  | _ => 0

/-- The body of an HTTP response: a JSON payload or a malformed body
that response.json() fails to parse. -/
inductive Body where
  | json (p : Payload)
  | malformed (s : String)
  deriving DecidableEq, Repr

/-- Outcome of requests.get: a transport-level failure raising a
RequestException, or a response with a final status code and a body. -/
inductive HttpResult where
  | netError (msg : String)
  | response (status : Nat) (body : Body)
  deriving DecidableEq, Repr

/-- fetch_crypto_data (lines 28-39) applied to the HTTP outcome.
raise_for_status raises HTTPError exactly for status codes 400-599
(the documented contract of the requests library); a JSON parse failure
raises JSONDecodeError, a RequestException subclass. Every
RequestException is caught: an error notice is emitted and None is
returned. Returns the fetch result and the optional in-function error
notice. -/
def fetch_crypto_data (http : HttpResult) : Option Payload × Option String :=
  match http with
  | HttpResult.netError msg => (none, some ("Error fetching data: " ++ msg))
  | HttpResult.response status body =>
    if 400 ≤ status ∧ status < 600 then
      (none, some "Error fetching data: HTTPError")
    else
      match body with
      | Body.json p => (some p, none)
      | Body.malformed s => (none, some ("Error fetching data: JSONDecodeError " ++ s))

/-- One full pass over a given HTTP outcome: fetch, then render. -/
def pipeline (http : HttpResult) : Render :=
  render (fetch_crypto_data http).1

/-- The COIN_MAP dict literal exactly as written in the source (lines
56-72), duplicate XRP entry included. -/
def COIN_MAP_entries : List (String × String) :=
  [("BTC", "bitcoin"), ("ETH", "ethereum"), ("DOGE", "dogecoin"),
   ("XRP", "ripple"), ("XRP", "ripple"), ("TETH", "tether"),
   ("BNB", "binancecoin"), ("SOL", "solana"), ("USDC", "usd-coin"),
   ("STETH", "staked-ether"), ("TRON", "tron"), ("CARD", "cardano"),
   ("WSTE", "wrapped-steth"), ("CHAI", "chainlink"), ("PI", "pi-network")]

/-- Python dict insertion: an existing key keeps its position and its
value is overwritten, a new key is appended. -/
def dictInsert (d : List (String × String)) (k v : String) : List (String × String) :=
  if d.any (fun e => e.1 == k) then
    d.map (fun e => if e.1 == k then (k, v) else e)
  else d ++ [(k, v)]

/-- COIN_MAP as the dict built from the literal entries in order, with
Python duplicate-key collapse semantics. -/
def COIN_MAP : List (String × String) :=
  COIN_MAP_entries.foldl (fun d kv => dictInsert d kv.1 kv.2) []

/-- The fixed lookback window (line 82). -/
def DAYS : Nat := 60

/-- selected_coin_id = COIN_MAP[selected_coin_name] (line 78). -/
def selected_coin_id (name : String) : Option String :=
  dictFind COIN_MAP name

/-- The argument pair of the fetch call issued for a selection (line 85):
the mapped provider identifier and the fixed DAYS window. -/
def fetchArgs (name : String) : Option (String × Nat) :=
  (selected_coin_id name).map (fun cid => (cid, DAYS))

/-- A memo entry of the fetch cache: the argument key, the time the
value was stored, and the stored return value. -/
structure CacheEntry where
  key : String × Nat
  storedAt : Int
  value : Option Payload
  deriving DecidableEq

/-- The fetch memo state. -/
abbrev CacheState := List CacheEntry

/-- The cache time-to-live in seconds (line 27). -/
def TTL : Int := 600

/-- Modelled from the spec: the st.cache_data time-to-live memo is
external library code, reimplemented per the spec as an explicit memo
table keyed by the argument tuple with an expiry timestamp checked
before each fetch. A stored entry is live while its age is below TTL. -/
def cacheLookup (c : CacheState) (key : String × Nat) (now : Int) : Option (Option Payload) :=
  match c.find? (fun e => e.key == key) with
  | some e => if now - e.storedAt < TTL then some e.value else none
  | none => none

/-- Modelled from the spec: one call to the cached fetcher at a given
time against a network oracle. A live memo entry is returned without a
network call; otherwise the network is called and whatever the fetcher
returns (the payload, or None on failure) is memoized. The Bool records
whether a network call was issued. -/
def cachedFetch (net : String → Nat → Int → Option Payload) (c : CacheState)
    (coin : String) (days : Nat) (now : Int) :
    Option Payload × CacheState × Bool :=
  match cacheLookup c (coin, days) now with
  | some v => (v, c, false)
  | none =>
    let v := net coin days now
    (v, CacheEntry.mk (coin, days) now v :: c.filter (fun e => !(e.key == (coin, days))), true)

/-- A sequence of re-executions at the given times, each calling the
cached fetcher with the same arguments; records each returned value and
whether that pass issued a network call. -/
def callSeq (net : String → Nat → Int → Option Payload) (coin : String)
    (days : Nat) : CacheState → List Int → List (Option Payload × Bool)
  | _, [] => []
  | c, t :: ts =>
    match cachedFetch net c coin days t with
    | (v, c2, issued) => (v, issued) :: callSeq net coin days c2 ts

/-- Number of network calls issued across a call sequence. -/
def netCalls (l : List (Option Payload × Bool)) : Nat :=
  (l.filter (fun r => r.2)).length

end CryptoApp

namespace CryptoApp

/-- A payload whose prices array has length two but whose total_volumes
array has length one, shared by the mismatch results. -/
def mismatchedPayload : Payload :=
  [("prices", [(0, 100), (60000, 110)]), ("total_volumes", [(0, 5)])]

/-- A well-formed payload with two aligned price and volume pairs. -/
def twoPointPayload : Payload :=
  [("prices", [(0, 100), (60000, 110)]), ("total_volumes", [(0, 5), (60000, 6)])]

lemma dictFind_isEmpty_eq_false {α : Type} (d : List (String × α)) (k : String) (v : α)
    (h : dictFind d k = some v) : d.isEmpty = false := by
  cases d with
  | nil => simp [dictFind] at h
  | cons a l => rfl

/-- Claim C6: for an absent (None) or empty payload, process_data returns
a table with zero rows and raises no exception. -/
theorem process_data_empty_payload :
    process_data none = Except.ok ([] : List Row) ∧
    process_data (some ([] : Payload)) = Except.ok ([] : List Row) :=
  ⟨rfl, rfl⟩

/-- Claim C9: the coin selector maps the label ETH to ethereum and XRP to
ripple, the duplicate XRP literal entry collapses to a single mapping,
and the fetch for a selection is issued with exactly the mapped
identifier and the fixed 60-day window. -/
theorem coin_map_selection :
    dictFind COIN_MAP "ETH" = some "ethereum" ∧
    dictFind COIN_MAP "XRP" = some "ripple" ∧
    (COIN_MAP.filter (fun e => e.1 == "XRP")).length = 1 ∧
    fetchArgs "ETH" = some ("ethereum", 60) ∧
    fetchArgs "XRP" = some ("ripple", 60) :=
  ⟨rfl, rfl, rfl, rfl, rfl⟩

/-- Claim C2 (code bug witness): on the one-row table produced from a
payload with a single aligned pair, the script reaches the metrics
branch and performs the one-before-last price lookup, which fails, so
the pass ends in an unhandled index error instead of skipping the
delta computation. -/
theorem single_row_prev_lookup_fails :
    process_data (some [("prices", [(0, 100)]), ("total_volumes", [(0, 5)])])
      = Except.ok [Row.mk 0 100 5] ∧
    getFromEnd ([Row.mk 0 100 5].map Row.price) 2 = none ∧
    render (some [("prices", [(0, 100)]), ("total_volumes", [(0, 5)])])
      = Render.exception "IndexError: index out of bounds" :=
  ⟨rfl, rfl, rfl⟩

/-- Claim C3 (counterexample): with a network that fails at every time, a
failing fetch at time 0 followed by the next 15-second tick issues only
one network call in total: the second pass returns the memoized failure
(None) without touching the network, refuting the claim that the next
tick issues a new network call. -/
theorem next_tick_returns_cached_failure :
    callSeq (fun _ _ _ => none) "bitcoin" 60 [] [0, 15]
      = [(none, true), (none, false)] ∧
    netCalls (callSeq (fun _ _ _ => none) "bitcoin" 60 [] [0, 15]) = 1 :=
  ⟨rfl, rfl⟩

/-- Claim C4 (counterexample): the truthy one-key payload lacking the
prices field makes the pipeline end in an unhandled KeyError, not in the
could-not-process warning banner. -/
theorem malformed_payload_exception_not_warning :
    render (some [("foo", [])]) = Render.exception "KeyError: prices" ∧
    render (some [("foo", [])]) ≠ Render.warning "Could not process the fetched data." := by
  refine ⟨rfl, ?_⟩
  intro hco
  rw [show render (some [("foo", [])]) = Render.exception "KeyError: prices" from rfl] at hco
  exact Render.noConfusion hco

/-- Claim C4 (amended): a truthy payload whose prices and total_volumes
fields are both present and empty yields the could-not-process warning
banner; a truthy payload lacking the prices field instead raises an
unhandled KeyError on prices, and a truthy payload with prices present
but lacking the total_volumes field raises an unhandled KeyError on
total_volumes. -/
theorem empty_series_warning_missing_key_exception :
    (∀ d : Payload, dictFind d "prices" = some [] →
      dictFind d "total_volumes" = some [] →
      render (some d) = Render.warning "Could not process the fetched data.") ∧
    (∀ d : Payload, d ≠ [] → dictFind d "prices" = none →
      render (some d) = Render.exception "KeyError: prices") ∧
    (∀ (d : Payload) (ps : List (Int × Rat)), dictFind d "prices" = some ps →
      dictFind d "total_volumes" = none →
      render (some d) = Render.exception "KeyError: total_volumes") := by
  refine ⟨?_, ?_, ?_⟩
  · intro d hp hv
    have hd : d.isEmpty = false := dictFind_isEmpty_eq_false d "prices" [] hp
    simp [render, truthy, process_data, hd, hp, hv]
  · intro d hne hp
    have hd : d.isEmpty = false := by simpa [List.isEmpty_iff] using hne
    simp [render, truthy, process_data, hd, hp]
  · intro d ps hp hv
    have hd : d.isEmpty = false := dictFind_isEmpty_eq_false d "prices" ps hp
    simp [render, truthy, process_data, hd, hp, hv]

/-- Claim C4 (witness for the amended statement): concrete payloads for
the warning branch and for both missing-key KeyError branches. -/
theorem empty_series_warning_witness :
    render (some [("prices", []), ("total_volumes", [])])
      = Render.warning "Could not process the fetched data." ∧
    render (some [("bar", [(1, 1)])])
      = Render.exception "KeyError: prices" ∧
    render (some [("prices", [(0, 100)])])
      = Render.exception "KeyError: total_volumes" :=
  ⟨empty_series_warning_missing_key_exception.1 _ rfl rfl,
   empty_series_warning_missing_key_exception.2.1 _ (by simp) rfl,
   empty_series_warning_missing_key_exception.2.2 _ _ rfl rfl⟩

end CryptoApp

namespace CryptoApp

/-- Claim C1: for a truthy payload with index-aligned, equally long and
non-empty prices and total_volumes arrays, process_data returns a table
with exactly one row per price pair, in input order, where row i carries
the second component of prices at i as price, the second component of
total_volumes at i as volume, and is keyed by the converted
epoch-milliseconds first component of prices at i. -/
theorem process_data_aligned (d : Payload) (ps vs : List (Int × Rat))
    (hp : dictFind d "prices" = some ps)
    (hv : dictFind d "total_volumes" = some vs)
    (hps : ps ≠ []) (hvs : vs ≠ [])
    (hlen : ps.length = vs.length) :
    ∃ rows, process_data (some d) = Except.ok rows ∧
      rows.length = ps.length ∧
      ∀ (i : Nat) (p v : Int × Rat), ps[i]? = some p → vs[i]? = some v →
        rows[i]? = some (Row.mk (toDatetimeNs p.1) p.2 v.2) := by
  have hd : d.isEmpty = false := dictFind_isEmpty_eq_false d "prices" ps hp
  refine ⟨(ps.zip vs).map (fun pv => Row.mk (toDatetimeNs pv.1.1) pv.1.2 pv.2.2), ?_, ?_, ?_⟩
  · simp [process_data, hd, hp, hv, hlen]
  · simp [List.length_zip, hlen]
  · intro i p v hpi hvi
    have hz : (ps.zip vs)[i]? = some (p, v) :=
      List.getElem?_zip_eq_some.2 ⟨hpi, hvi⟩
    simp [List.getElem?_map, hz]

/-- Claim C1 witness: the aligned two-point payload. -/
theorem process_data_aligned_witness :
    ∃ rows, process_data (some twoPointPayload) = Except.ok rows ∧
      rows.length = ([((0 : Int), (100 : Rat)), (60000, 110)]).length ∧
      ∀ (i : Nat) (p v : Int × Rat), ([((0 : Int), (100 : Rat)), (60000, 110)])[i]? = some p →
        ([((0 : Int), (5 : Rat)), (60000, 6)])[i]? = some v →
        rows[i]? = some (Row.mk (toDatetimeNs p.1) p.2 v.2) :=
  process_data_aligned twoPointPayload _ _ rfl rfl (by simp) (by simp) rfl

/-- Claim C10: for a truthy payload whose prices and total_volumes arrays
have different lengths, process_data fails with the ValueError of the
volume-column assignment; it never returns a truncated or padded table. -/
theorem process_data_mismatch (d : Payload) (ps vs : List (Int × Rat))
    (hp : dictFind d "prices" = some ps)
    (hv : dictFind d "total_volumes" = some vs)
    (hlen : ps.length ≠ vs.length) :
    process_data (some d)
      = Except.error "ValueError: Length of values does not match length of index" := by
  have hd : d.isEmpty = false := dictFind_isEmpty_eq_false d "prices" ps hp
  have hne : ¬ vs.length = ps.length := fun h => hlen h.symm
  simp [process_data, hd, hp, hv, hne]

/-- Claim C10 witness: two price pairs against one volume pair. -/
theorem process_data_mismatch_witness :
    process_data (some mismatchedPayload)
      = Except.error "ValueError: Length of values does not match length of index" :=
  process_data_mismatch mismatchedPayload _ _ rfl rfl (by decide)

lemma getFromEnd_append_two (l : List Rat) (x y : Rat) :
    getFromEnd (l ++ [x, y]) 1 = some y ∧ getFromEnd (l ++ [x, y]) 2 = some x := by
  unfold getFromEnd
  rw [if_pos (by simp), if_pos (by simp)]
  constructor
  · rw [List.getElem?_append_right (by simp)]
    have h1 : (l ++ [x, y]).length - 1 - l.length = 1 := by simp
    rw [h1]
    rfl
  · rw [List.getElem?_append_right (by simp)]
    have h2 : (l ++ [x, y]).length - 2 - l.length = 0 := by simp
    rw [h2]
    rfl

/-- Claim C7: on every table with at least two rows (decomposed as any
prefix followed by two final rows) the metrics are: latest price equal to
the last price, previous price equal to the second-to-last price, change
their difference, and percentage change the difference divided by the
previous price times 100; in particular the table priced 100 then 110
gives latest 110, previous 100, change 10 and percentage change 10. -/
theorem metrics_last_two (xs : List Row) (a b : Row) :
    computeMetrics (xs ++ [a, b])
      = some (Metrics.mk b.price a.price (b.price - a.price)
          ((b.price - a.price) / a.price * 100)) ∧
    computeMetrics [Row.mk 0 100 1, Row.mk 1 110 1]
      = some (Metrics.mk 110 100 10 10) := by
  constructor
  · have hmap : (xs ++ [a, b]).map Row.price = xs.map Row.price ++ [a.price, b.price] := by
      simp
    unfold computeMetrics
    rw [hmap, (getFromEnd_append_two _ _ _).1, (getFromEnd_append_two _ _ _).2]
  · simp [computeMetrics, getFromEnd]
    norm_num

end CryptoApp

namespace CryptoApp

lemma callSeq_all_hit (net : String → Nat → Int → Option Payload)
    (coin : String) (days : Nat) (t0 : Int) (v : Option Payload) (ts : List Int)
    (h : ∀ t ∈ ts, t - t0 < TTL) :
    callSeq net coin days [CacheEntry.mk (coin, days) t0 v] ts
      = ts.map (fun _ => (v, false)) := by
  induction ts with
  | nil => rfl
  | cons t ts ih =>
    have ht : t - t0 < TTL := h t (by simp)
    have hfetch : cachedFetch net [CacheEntry.mk (coin, days) t0 v] coin days t
        = (v, [CacheEntry.mk (coin, days) t0 v], false) := by
      simp [cachedFetch, cacheLookup, List.find?, ht]
    simp [callSeq, hfetch, ih (fun u hu => h u (by simp [hu]))]

/-- Claim C5: starting from an empty memo, a first call at time t0
followed by any number of repeated calls with identical arguments at
times inside the 600-second window issues at most one network call, and
every pass returns the value fetched at t0 (the cached payload). -/
theorem cache_single_network_call (net : String → Nat → Int → Option Payload)
    (coin : String) (days : Nat) (t0 : Int) (ts : List Int)
    (h : ∀ t ∈ ts, t0 ≤ t ∧ t < t0 + TTL) :
    netCalls (callSeq net coin days [] (t0 :: ts)) ≤ 1 ∧
    ∀ r ∈ callSeq net coin days [] (t0 :: ts), r.1 = net coin days t0 := by
  have hfirst : cachedFetch net [] coin days t0
      = (net coin days t0, [CacheEntry.mk (coin, days) t0 (net coin days t0)], true) := by
    simp [cachedFetch, cacheLookup, List.find?]
  have hrest := callSeq_all_hit net coin days t0 (net coin days t0) ts
    (fun t ht => by have := h t ht; omega)
  have hseq : callSeq net coin days [] (t0 :: ts)
      = (net coin days t0, true) :: ts.map (fun _ => (net coin days t0, false)) := by
    simp [callSeq, hfirst, hrest]
  rw [hseq]
  constructor
  · simp [netCalls, List.filter]
  · intro r hr
    rcases List.mem_cons.1 hr with h1 | h2
    · rw [h1]
    · rcases List.mem_map.1 h2 with ⟨u, hu, hru⟩
      rw [← hru]

/-- Claim C5 witness: three re-executions at times 0, 5 and 10 inside
the window issue one network call and all return the fetched payload. -/
theorem cache_single_network_call_witness :
    netCalls (callSeq (fun _ _ _ => some [("prices", [(0, 1)])]) "ethereum" 60 [] [0, 5, 10]) ≤ 1 ∧
    ∀ r ∈ callSeq (fun _ _ _ => some [("prices", [(0, 1)])]) "ethereum" 60 [] [0, 5, 10],
      r.1 = some [("prices", [(0, 1)])] :=
  cache_single_network_call _ "ethereum" 60 0 [5, 10] (by decide)

/-- Claim C3 (amended): once a fetch result (in particular the failure
result None) is memoized at time t0, a re-execution within the
600-second time-to-live returns the memoized result without issuing a
network call, and a re-execution at or after expiry issues a new
network call. -/
theorem cached_failure_ttl (net : String → Nat → Int → Option Payload)
    (coin : String) (days : Nat) (t0 now : Int) (v : Option Payload) :
    (now - t0 < TTL →
      cachedFetch net [CacheEntry.mk (coin, days) t0 v] coin days now
        = (v, [CacheEntry.mk (coin, days) t0 v], false)) ∧
    (TTL ≤ now - t0 →
      (cachedFetch net [CacheEntry.mk (coin, days) t0 v] coin days now).2.2 = true ∧
      (cachedFetch net [CacheEntry.mk (coin, days) t0 v] coin days now).1
        = net coin days now) := by
  constructor
  · intro hlt
    simp [cachedFetch, cacheLookup, List.find?, hlt]
  · intro hge
    have hnot : ¬ now - t0 < TTL := by omega
    simp [cachedFetch, cacheLookup, List.find?, hnot]

/-- Claim C3 (witness for the amended statement): with the failure
memoized at time 0, the tick at time 15 returns the cached failure with
no network call, and the pass at time 600 issues a fresh network call. -/
theorem cached_failure_ttl_witness :
    cachedFetch (fun _ _ _ => none) [CacheEntry.mk ("bitcoin", 60) 0 none] "bitcoin" 60 15
      = (none, [CacheEntry.mk ("bitcoin", 60) 0 none], false) ∧
    (cachedFetch (fun _ _ _ => none) [CacheEntry.mk ("bitcoin", 60) 0 none] "bitcoin" 60 600).2.2
      = true ∧
    (cachedFetch (fun _ _ _ => none) [CacheEntry.mk ("bitcoin", 60) 0 none] "bitcoin" 60 600).1
      = none :=
  ⟨(cached_failure_ttl _ "bitcoin" 60 0 15 none).1 (by decide),
   ((cached_failure_ttl _ "bitcoin" 60 0 600 none).2 (by decide)).1,
   ((cached_failure_ttl _ "bitcoin" 60 0 600 none).2 (by decide)).2⟩

/-- Claim C8 (amended): a transport failure, an HTTP status in 400-599
(in particular a simulated 500), or a malformed response body all
collapse to the fetch-failed outcome: the fetcher returns None together
with a human-readable notice, the error banner is rendered, and zero
charts are rendered. A 3xx status with a valid JSON body is the one
non-2xx case the source treats as success. -/
theorem fetch_failure_collapse (http : HttpResult)
    (h : (∃ m, http = HttpResult.netError m) ∨
         (∃ s b, http = HttpResult.response s b ∧ 400 ≤ s ∧ s < 600) ∨
         (∃ s m, http = HttpResult.response s (Body.malformed m))) :
    (fetch_crypto_data http).1 = none ∧
    (fetch_crypto_data http).2 ≠ none ∧
    pipeline http = Render.errorBanner "Failed to fetch data from the API. Please try again later." ∧
    chartsRendered (pipeline http) = 0 := by
  obtain ⟨m, rfl⟩ | ⟨s, b, rfl, h4, h6⟩ | ⟨s, m, rfl⟩ := h
  · exact ⟨rfl, by simp [fetch_crypto_data], rfl, rfl⟩
  · have hif : (400 ≤ s ∧ s < 600) := ⟨h4, h6⟩
    refine ⟨?_, ?_, ?_, ?_⟩ <;>
      simp [fetch_crypto_data, pipeline, render, truthy, chartsRendered, hif]
  · by_cases hs : 400 ≤ s ∧ s < 600
    · refine ⟨?_, ?_, ?_, ?_⟩ <;>
        simp [fetch_crypto_data, pipeline, render, truthy, chartsRendered, hs]
    · refine ⟨?_, ?_, ?_, ?_⟩ <;>
        simp [fetch_crypto_data, pipeline, render, truthy, chartsRendered, hs]

/-- Claim C8 (witness for the amended statement): a simulated HTTP 500
response with a valid body takes the error-banner path with zero
charts. -/
theorem fetch_failure_collapse_witness :
    (fetch_crypto_data (HttpResult.response 500 (Body.json twoPointPayload))).1 = none ∧
    (fetch_crypto_data (HttpResult.response 500 (Body.json twoPointPayload))).2 ≠ none ∧
    pipeline (HttpResult.response 500 (Body.json twoPointPayload))
      = Render.errorBanner "Failed to fetch data from the API. Please try again later." ∧
    chartsRendered (pipeline (HttpResult.response 500 (Body.json twoPointPayload))) = 0 :=
  fetch_failure_collapse _
    (Or.inr (Or.inl ⟨500, Body.json twoPointPayload, rfl, by omega, by omega⟩))

/-- Claim C8 (counterexample): a non-2xx final status outside 400-599, a
300 with a valid JSON body, is not a fetch failure in the source:
raise_for_status does not raise for it, the payload is returned and the
three charts are rendered. -/
theorem non_2xx_status_not_always_failure :
    (fetch_crypto_data (HttpResult.response 300 (Body.json twoPointPayload))).1
      = some twoPointPayload ∧
    chartsRendered (pipeline (HttpResult.response 300 (Body.json twoPointPayload))) = 3 :=
  ⟨rfl, rfl⟩

end CryptoApp
